import Mathlib

/-!
Verification development for the auto-player decision and action-dispatch
engine of the mahjong-helper repository.

Shallow embedding conventions:
* Go `float64` values are modelled as exact rationals (`ℚ`); the engine only
  compares and multiplies small decimal constants, so no rounding behaviour
  is observable at the level of the specified properties.
* Go `[]int` tile-count slices are modelled as `List ℕ` (counts are
  non-negative in every reachable state of the program).
* The hand-analysis engine (`util.CalculateShantenWithImproves14`,
  `util.CalculateMeld`), tile-string parsing (`util.StrToTile34`) and the
  tile-name table (`util.MahjongZH`) are external collaborators of this core
  (they live in the `util` module, outside the embedded sources); they are
  passed in as parameters, or modelled as opaque renderings where only their
  presence matters.
* Terminal I/O (colour printing, prompts) is modelled as an explicit event
  trace where a claim depends on it, and dropped where none does.
-/

namespace MahjongHelper

/-- Tile-name table `util.MahjongZH` (external to the embedded sources);
modelled as an opaque rendering of the tile index.  No claim inspects the
text it produces, only the structure of the strings it is embedded in. -/
def MahjongZH (t : ℤ) : String := toString t

/-- `util.CountOfTiles34` (external to the embedded sources): the total
number of tiles in a 34-entry count vector. -/
def CountOfTiles34 (tiles34 : List ℕ) : ℕ := tiles34.sum

/-- The subset of `model.PlayerInfo` read by the embedded code: the hand
count vector, the remaining-tiles vector, the per-suit red-five counters and
the discard log. -/
structure PlayerInfo where
  HandTiles34 : List ℕ
  LeftTiles34 : List ℕ
  NumRedFives : List ℕ
  DiscardTiles : List ℕ
deriving DecidableEq

/-- The fields of `util.Hand13AnalysisResult` that the decision code reads
(through `Result13`): shanten number, total waits (`Waits.AllCount()`),
dama point and average improve-waits count. -/
structure Hand13AnalysisResult where
  Shanten : ℤ
  WaitsAllCount : ℤ
  DamaPoint : ℤ
  AvgImproveWaitsCount : ℚ
deriving DecidableEq

/-- The fields of `util.Hand14AnalysisResult` that the decision code reads:
the discard-tile index and the nested 13-tile analysis. -/
structure Hand14AnalysisResult where
  DiscardTile : ℤ
  Result13 : Hand13AnalysisResult
deriving DecidableEq

/-- `AutoPlayerConfig` (src/unnamed/part_001 lines 12-23). -/
structure AutoPlayerConfig where
  Enabled : Bool
  AutoDiscard : Bool
  AutoMeld : Bool
  AutoRiichi : Bool
  AutoAgari : Bool
  MinConfidence : ℚ
  DefenseThreshold : ℚ
  DelaySeconds : ℚ
  ConfirmActions : Bool
  Strategy : String
deriving DecidableEq

/-- `defaultAutoPlayerConfig` (src/unnamed/part_001 lines 26-37). -/
def defaultAutoPlayerConfig : AutoPlayerConfig :=
  { Enabled := false
    AutoDiscard := true
    AutoMeld := false
    AutoRiichi := false
    AutoAgari := true
    MinConfidence := 7/10
    DefenseThreshold := 15/100
    DelaySeconds := 1
    ConfirmActions := true
    Strategy := "balanced" }

/-- `Decision` (src/unnamed/part_001 lines 43-48).  In the Go source,
decisions built without an explicit `Tile` field carry the zero value `0`. -/
structure Decision where
  Action : String
  Tile : ℤ
  Confidence : ℚ
  Reason : String
deriving DecidableEq

/-- `riskTable` is declared elsewhere in the repository as
`type riskTable []float64`; a Go `nil` table is `none`. -/
abbrev riskTable := Option (List ℚ)

/-- Risk of a tile in a (possibly nil) risk table: slice indexing with the
zero default (in the program both the hand and the table have 34 entries). -/
def riskAt (table : riskTable) (t : ℤ) : ℚ :=
  (table.getD []).getD t.toNat 0

/-- Modelled from the spec: `riskTable.getBestDefenceTile` is defined outside
the embedded sources; per the spec it chooses "the lowest-danger tile in hand
(tie-break: ... lowest tile index)", returning `-1` when the hand holds no
tile (the caller guards on `safestTile >= 0`). -/
def getBestDefenceTile (table : riskTable) (handTiles34 : List ℕ) : ℤ :=
  let candidates := (handTiles34.enum.filter (fun p => 0 < p.2)).map
    (fun p => ((p.1 : ℤ), (table.getD []).getD p.1 0))
  match candidates with
  | [] => -1
  | c :: cs => (cs.foldl (fun best q => if q.2 < best.2 then q else best) c).1

/-- `assessDangerLevel` (src/unnamed/part_001 lines 213-229): `0` for a nil
table, otherwise a running maximum of `table[tile]` over the hand tiles with
positive count, starting from `0.0`. -/
def assessDangerLevel (mixedRiskTable : riskTable) (playerInfo : PlayerInfo) : ℚ :=
  match mixedRiskTable with
  | none => 0
  | some table =>
    playerInfo.HandTiles34.enum.foldl
      (fun maxRisk p =>
        if 0 < p.2 then
          let risk := table.getD p.1 0
          if risk > maxRisk then risk else maxRisk
        else maxRisk)
      0

/-- `aggressiveDiscardDecision` (src/unnamed/part_001 lines 116-136). -/
def aggressiveDiscardDecision (_playerInfo : PlayerInfo)
    (results14 incShantenResults14 : List Hand14AnalysisResult)
    (_dangerLevel : ℚ) : Decision :=
  match results14 with
  | best :: _ =>
    { Action := "discard"
      Tile := best.DiscardTile
      Confidence := 9/10
      Reason := "进攻切牌：" ++ MahjongZH best.DiscardTile ++ " (进张"
        ++ toString best.Result13.WaitsAllCount ++ ", 打点"
        ++ toString best.Result13.DamaPoint ++ ")" }
  | [] =>
    match incShantenResults14 with
    | best :: _ =>
      { Action := "discard"
        Tile := best.DiscardTile
        Confidence := 7/10
        Reason := "向听倒退切牌：" ++ MahjongZH best.DiscardTile ++ " (改良后进张"
          ++ toString best.Result13.AvgImproveWaitsCount ++ ")" }
    | [] => { Action := "pass", Tile := 0, Confidence := 0, Reason := "无法找到合适切牌" }

/-- The tail of `balancedDiscardDecision` (src/unnamed/part_001 lines
172-187), reached when the defensive guard does not return: the top-ranked
discard at confidence `0.85`, scaled by `0.8` above danger `0.1`, else pass.
Factored out because the Go code reaches it by falling through the guarded
early return. -/
def balancedOffense (results14 : List Hand14AnalysisResult) (dangerLevel : ℚ) : Decision :=
  match results14 with
  | best :: _ =>
    let confidence : ℚ := if dangerLevel > 1/10 then (85/100) * (8/10) else 85/100
    { Action := "discard"
      Tile := best.DiscardTile
      Confidence := confidence
      Reason := "平衡切牌：" ++ MahjongZH best.DiscardTile ++ " (进张"
        ++ toString best.Result13.WaitsAllCount ++ ", 打点"
        ++ toString best.Result13.DamaPoint ++ ")" }
  | [] => { Action := "pass", Tile := 0, Confidence := 0, Reason := "无法找到合适切牌" }

/-- The defensive-discard early return shared by the defensive and balanced
strategies (src/unnamed/part_001 lines 140-151 and 160-170): `some` of the
safe discard when the guard fires and a hand tile exists, `none` otherwise. -/
def defendEarlyReturn (config : AutoPlayerConfig) (playerInfo : PlayerInfo)
    (mixedRiskTable : riskTable) (dangerLevel : ℚ) : Option Decision :=
  if dangerLevel > config.DefenseThreshold then
    let safestTile := getBestDefenceTile mixedRiskTable playerInfo.HandTiles34
    if safestTile ≥ 0 then
      some { Action := "discard"
             Tile := safestTile
             Confidence := 8/10
             Reason := "防守切牌：" ++ MahjongZH safestTile ++ " (危险度"
               ++ toString (riskAt mixedRiskTable safestTile) ++ ")" }
    else none
  else none

/-- `balancedDiscardDecision` (src/unnamed/part_001 lines 158-188). -/
def balancedDiscardDecision (config : AutoPlayerConfig) (playerInfo : PlayerInfo)
    (results14 _incShantenResults14 : List Hand14AnalysisResult)
    (mixedRiskTable : riskTable) (dangerLevel : ℚ) : Decision :=
  match defendEarlyReturn config playerInfo mixedRiskTable dangerLevel with
  | some d => d
  | none => balancedOffense results14 dangerLevel

/-- `defensiveDiscardDecision` (src/unnamed/part_001 lines 139-155).  Note:
the delegation passes `nil, nil` for the two analysis-result lists. -/
def defensiveDiscardDecision (config : AutoPlayerConfig) (playerInfo : PlayerInfo)
    (mixedRiskTable : riskTable) (dangerLevel : ℚ) : Decision :=
  match defendEarlyReturn config playerInfo mixedRiskTable dangerLevel with
  | some d => d
  | none => balancedDiscardDecision config playerInfo [] [] mixedRiskTable dangerLevel

/-- The type of the external analysis call
`util.CalculateShantenWithImproves14`: shanten, the improving results and the
shanten-regressing results. -/
abbrev ShantenAnalysis :=
  PlayerInfo → ℤ × List Hand14AnalysisResult × List Hand14AnalysisResult

/-- The type of the external analysis call `util.CalculateMeld`
(third return value unread by the embedded code). -/
abbrev MeldAnalysis := PlayerInfo → ℤ → Bool → Bool → ℤ × List Hand14AnalysisResult

/-- `makeDiscardDecision` (src/unnamed/part_001 lines 94-113). -/
def makeDiscardDecision (config : AutoPlayerConfig) (calcShanten : ShantenAnalysis)
    (playerInfo : PlayerInfo) (mixedRiskTable : riskTable) : Decision :=
  let r := calcShanten playerInfo
  let results14 := r.2.1
  let incShantenResults14 := r.2.2
  let dangerLevel := assessDangerLevel mixedRiskTable playerInfo
  match config.Strategy with
  | "aggressive" =>
    aggressiveDiscardDecision playerInfo results14 incShantenResults14 dangerLevel
  | "defensive" =>
    defensiveDiscardDecision config playerInfo mixedRiskTable dangerLevel
  | _ =>
    balancedDiscardDecision config playerInfo results14 incShantenResults14
      mixedRiskTable dangerLevel

/-- `makeMeldDecision` (src/unnamed/part_001 lines 191-210). -/
def makeMeldDecision (config : AutoPlayerConfig) (calcMeld : MeldAnalysis)
    (playerInfo : PlayerInfo) (targetTile : ℤ) (_mixedRiskTable : riskTable) : Decision :=
  if !config.AutoMeld then
    { Action := "pass", Tile := 0, Confidence := 0, Reason := "自动鸣牌已禁用" }
  else
    let r := calcMeld playerInfo targetTile false true
    match r.2 with
    | best :: _ =>
      { Action := "meld"
        Tile := targetTile
        Confidence := 75/100
        Reason := "鸣牌：" ++ MahjongZH targetTile ++ " (向听"
          ++ toString best.Result13.Shanten ++ ", 进张"
          ++ toString best.Result13.WaitsAllCount ++ ")" }
    | [] => { Action := "pass", Tile := 0, Confidence := 0, Reason := "鸣牌效果不佳" }

/-- `MakeDecision` (src/unnamed/part_001 lines 64-91).  The agari check is an
early return guarded by draw-phase (`count % 3 == 1`); it is encoded with an
`Option` like the other early returns. -/
def MakeDecision (config : AutoPlayerConfig) (calcShanten : ShantenAnalysis)
    (calcMeld : MeldAnalysis) (playerInfo : PlayerInfo) (mixedRiskTable : riskTable)
    (targetTile : ℤ) (canMeld : Bool) : Decision :=
  if !config.Enabled then
    { Action := "pass", Tile := 0, Confidence := 0, Reason := "自动出牌已禁用" }
  else
    let agariReturn : Option Decision :=
      if CountOfTiles34 playerInfo.HandTiles34 % 3 == 1 then
        let shanten := (calcShanten playerInfo).1
        if shanten == -1 then
          some { Action := "agari", Tile := 0, Confidence := 1, Reason := "已和牌" }
        else none
      else none
    match agariReturn with
    | some d => d
    | none =>
      let handCount := CountOfTiles34 playerInfo.HandTiles34
      if handCount % 3 == 1 then
        makeDiscardDecision config calcShanten playerInfo mixedRiskTable
      else if handCount % 3 == 2 then
        if canMeld && targetTile != -1 then
          makeMeldDecision config calcMeld playerInfo targetTile mixedRiskTable
        else
          makeDiscardDecision config calcShanten playerInfo mixedRiskTable
      else
        { Action := "pass", Tile := 0, Confidence := 0, Reason := "无有效操作" }

/-- `AutoPlayerConfigFile` (src/auto_player_config.go lines 12-23): the
persisted-form mirror of the configuration. -/
structure AutoPlayerConfigFile where
  Enabled : Bool
  AutoDiscard : Bool
  AutoMeld : Bool
  AutoRiichi : Bool
  AutoAgari : Bool
  MinConfidence : ℚ
  DefenseThreshold : ℚ
  DelaySeconds : ℚ
  ConfirmActions : Bool
  Strategy : String
deriving DecidableEq

/-- The strategy whitelist of `validateConfig`
(src/auto_player_config.go line 172). -/
def validStrategies : List String := ["aggressive", "balanced", "defensive"]

/-- `validateConfig` (src/auto_player_config.go lines 159-185): range checks
in declaration order, returning the first violation's message, `none` when
the candidate is accepted. -/
def validateConfig (config : AutoPlayerConfigFile) : Option String :=
  if config.MinConfidence < 0 ∨ config.MinConfidence > 1 then
    some "最小置信度必须在 0.0 到 1.0 之间"
  else if config.DefenseThreshold < 0 ∨ config.DefenseThreshold > 1 then
    some "防守阈值必须在 0.0 到 1.0 之间"
  else if config.DelaySeconds < 0 ∨ config.DelaySeconds > 10 then
    some "延迟时间必须在 0.0 到 10.0 秒之间"
  else if ¬ (config.Strategy ∈ validStrategies) then
    some "策略必须是以下之一: [aggressive balanced defensive]"
  else none

/-- The field-by-field copy from the persisted form to the active form
performed by `LoadAutoPlayerConfig` (src/auto_player_config.go lines 54-65). -/
def applyConfigFile (f : AutoPlayerConfigFile) : AutoPlayerConfig :=
  { Enabled := f.Enabled
    AutoDiscard := f.AutoDiscard
    AutoMeld := f.AutoMeld
    AutoRiichi := f.AutoRiichi
    AutoAgari := f.AutoAgari
    MinConfidence := f.MinConfidence
    DefenseThreshold := f.DefenseThreshold
    DelaySeconds := f.DelaySeconds
    ConfirmActions := f.ConfirmActions
    Strategy := f.Strategy }

/-- `defaultConfigFile` as synthesized by `SaveDefaultConfig`
(src/auto_player_config.go lines 110-121). -/
def defaultConfigFile : AutoPlayerConfigFile :=
  { Enabled := false
    AutoDiscard := true
    AutoMeld := false
    AutoRiichi := false
    AutoAgari := true
    MinConfidence := 7/10
    DefenseThreshold := 15/100
    DelaySeconds := 1
    ConfirmActions := true
    Strategy := "balanced" }

/-- Outcome of the file I/O performed by `LoadAutoPlayerConfig`, abstracted:
absent file, unreadable file, unparsable contents, or parsed contents. -/
inductive ConfigFileState where
  | absent
  | unreadable (msg : String)
  | unparsable (msg : String)
  | parsed (f : AutoPlayerConfigFile)
deriving DecidableEq

/-- `LoadAutoPlayerConfig` (src/auto_player_config.go lines 30-69), with file
I/O abstracted into `file` and the process-wide active configuration passed
and returned explicitly (`SetAutoPlayerConfig`, src/unnamed/part_001 lines
358-361, replaces it wholesale).  The absent-file path runs
`SaveDefaultConfig` (the persisting write is not modelled; the default is
validated by construction and applied).  Error paths return before
`SetAutoPlayerConfig` is ever called, so the active configuration comes back
unchanged. -/
def LoadAutoPlayerConfig (file : ConfigFileState) (active : AutoPlayerConfig) :
    Except String Unit × AutoPlayerConfig :=
  match file with
  | ConfigFileState.absent => (Except.ok (), applyConfigFile defaultConfigFile)
  | ConfigFileState.unreadable msg => (Except.error ("读取配置文件失败: " ++ msg), active)
  | ConfigFileState.unparsable msg => (Except.error ("解析配置文件失败: " ++ msg), active)
  | ConfigFileState.parsed f =>
    match validateConfig f with
    | some msg => (Except.error ("配置文件验证失败: " ++ msg), active)
    | none => (Except.ok (), applyConfigFile f)

/-- Pointwise update of a count vector at one index (Go `l[i]++` / `l[i]--`;
subtraction on `ℕ` saturates at `0`, which is unreachable for the guarded
updates the claims touch). -/
def modifyAt (l : List ℕ) (i : ℕ) (f : ℕ → ℕ) : List ℕ :=
  l.enum.map (fun p => if p.1 == i then f p.2 else p.2)

/-- `handleSpecialCommands` (src/unnamed/part_000 lines 93-123).
`handleAutoCmd` stands for `handleAutoPlayerCommand`, which is outside the
embedded sources; `quit`/`exit` call `os.Exit(0)` in Go — process
termination is not modelled, only the `true` ("handled") result the
surrounding loop would observe. -/
def handleSpecialCommands (handleAutoCmd : String → Bool) (input : String) : Bool :=
  let input := input.trim
  if input == "help" then true
  else if input == "auto-help" then true
  else if input == "quit" ∨ input == "exit" then true
  else if input.startsWith "auto-" then handleAutoCmd input
  else false

/-- One iteration of the `interact` loop (src/unnamed/part_000 lines 30-89).
`strToTile34` stands for the external parser `util.StrToTile34`; terminal
reads/writes and the trailing `analysisPlayerWithRisk` display are not
modelled.  The result is the error returned out of `interact` (if any)
paired with the player state as the caller sees it afterwards: every
re-prompt path leaves the state unchanged, and the phase-error path returns
before touching anything. -/
def interactStep (strToTile34 : String → Except String (ℕ × Bool))
    (handleAutoCmd : String → Bool) (pi : PlayerInfo) (input : String) :
    Option String × PlayerInfo :=
  let count := CountOfTiles34 pi.HandTiles34
  if count % 3 == 0 then
    (some ("参数错误: " ++ toString count ++ " 张牌"), pi)
  else if count % 3 == 1 then
    if handleSpecialCommands handleAutoCmd input then (none, pi)
    else
      match strToTile34 input with
      | Except.error _ => (none, pi)
      | Except.ok (tile, isRedFive) =>
        if pi.HandTiles34.getD tile 0 == 4 then (none, pi)
        else
          let pi :=
            if isRedFive then
              { pi with NumRedFives := modifyAt pi.NumRedFives (tile / 9) (· + 1) }
            else pi
          (none, { pi with
                    LeftTiles34 := modifyAt pi.LeftTiles34 tile (· - 1)
                    HandTiles34 := modifyAt pi.HandTiles34 tile (· + 1) })
  else
    if handleSpecialCommands handleAutoCmd input then (none, pi)
    else
      match strToTile34 input with
      | Except.error _ => (none, pi)
      | Except.ok (tile, isRedFive) =>
        if pi.HandTiles34.getD tile 0 == 0 then (none, pi)
        else
          let pi :=
            if isRedFive then
              { pi with NumRedFives := modifyAt pi.NumRedFives (tile / 9) (· - 1) }
            else pi
          (none, { pi with
                    HandTiles34 := modifyAt pi.HandTiles34 tile (· - 1)
                    DiscardTiles := pi.DiscardTiles ++ [tile] })

/-- The five calls of the `ActionSenderInterface` capability
(src/unnamed/part_001 lines 295-301). -/
inductive ChannelCall where
  | discardCall (tile34 : ℤ)
  | meldCall (meldType : ℤ) (targetTile : ℤ) (combination : List ℤ)
  | riichiCall
  | agariCall
  | passCall
deriving DecidableEq

/-- Observable events of `ExecuteDecision`: the decision display, the
confirmation prompt, the reaction-latency sleep, a dispatched channel call,
and the local "simulated execution" report used when no sender is attached. -/
inductive ExecEvent where
  | displayEvent (d : Decision)
  | confirmPromptEvent
  | sleepEvent (seconds : ℚ)
  | sendEvent (c : ChannelCall)
  | simulatedEvent (msg : String)
deriving DecidableEq

/-- An attached action sender, abstracted to the result each call returns. -/
abbrev ActionSenderModel := ChannelCall → Except String Unit

/-- `confirmAction` (src/unnamed/part_001 lines 287-292): the scanned
response confirms only when it is exactly `y` or `Y`. -/
def confirmAction (response : String) : Bool :=
  response == "y" || response == "Y"

/-- `executeDiscard` (src/unnamed/part_001 lines 312-320). -/
def executeDiscard (sender : Option ActionSenderModel) (tile : ℤ) :
    Except String Unit × List ExecEvent :=
  match sender with
  | some s =>
    (s (ChannelCall.discardCall tile), [ExecEvent.sendEvent (ChannelCall.discardCall tile)])
  | none =>
    (Except.ok (), [ExecEvent.simulatedEvent ("模拟执行切牌: " ++ MahjongZH tile)])

/-- `executeMeld` (src/unnamed/part_001 lines 323-332): the meld sub-type is
hardcoded to `1` (pon) with a triplet combination. -/
def executeMeld (sender : Option ActionSenderModel) (tile : ℤ) :
    Except String Unit × List ExecEvent :=
  match sender with
  | some s =>
    (s (ChannelCall.meldCall 1 tile [tile, tile, tile]),
      [ExecEvent.sendEvent (ChannelCall.meldCall 1 tile [tile, tile, tile])])
  | none =>
    (Except.ok (), [ExecEvent.simulatedEvent ("模拟执行鸣牌: " ++ MahjongZH tile)])

/-- `executeAgari` (src/unnamed/part_001 lines 335-342). -/
def executeAgari (sender : Option ActionSenderModel) :
    Except String Unit × List ExecEvent :=
  match sender with
  | some s => (s ChannelCall.agariCall, [ExecEvent.sendEvent ChannelCall.agariCall])
  | none => (Except.ok (), [ExecEvent.simulatedEvent "模拟执行和牌"])

/-- `executeRiichi` (src/unnamed/part_001 lines 345-352). -/
def executeRiichi (sender : Option ActionSenderModel) :
    Except String Unit × List ExecEvent :=
  match sender with
  | some s => (s ChannelCall.riichiCall, [ExecEvent.sendEvent ChannelCall.riichiCall])
  | none => (Except.ok (), [ExecEvent.simulatedEvent "模拟执行立直"])

/-- `ExecuteDecision` (src/unnamed/part_001 lines 232-265): immediate
success for `pass`; otherwise display, optional confirmation (rejection
returns the cancellation error before any dispatch), optional delay, then
dispatch by action kind.  The result pairs the returned error with the
ordered event trace. -/
def ExecuteDecision (config : AutoPlayerConfig) (sender : Option ActionSenderModel)
    (confirmResponse : String) (decision : Decision) :
    Except String Unit × List ExecEvent :=
  if decision.Action == "pass" then (Except.ok (), [])
  else
    let displayed := [ExecEvent.displayEvent decision]
    if config.ConfirmActions && !(confirmAction confirmResponse) then
      (Except.error "用户取消操作", displayed ++ [ExecEvent.confirmPromptEvent])
    else
      let confirmed := if config.ConfirmActions then [ExecEvent.confirmPromptEvent] else []
      let delayed :=
        if config.DelaySeconds > 0 then [ExecEvent.sleepEvent config.DelaySeconds] else []
      let dispatched :=
        if decision.Action == "discard" then executeDiscard sender decision.Tile
        else if decision.Action == "meld" then executeMeld sender decision.Tile
        else if decision.Action == "agari" then executeAgari sender
        else if decision.Action == "riichi" then executeRiichi sender
        else (Except.error ("未知操作类型: " ++ decision.Action), [])
      (dispatched.1, displayed ++ confirmed ++ delayed ++ dispatched.2)

/-! Concrete instances used by the witness and counterexample theorems. -/

/-- The default configuration with the engine switched on. -/
def enabledConfig : AutoPlayerConfig := { defaultAutoPlayerConfig with Enabled := true }

/-- The enabled configuration under the defensive strategy. -/
def defensiveConfig : AutoPlayerConfig := { enabledConfig with Strategy := "defensive" }

/-- The enabled configuration with automatic melding switched on. -/
def autoMeldConfig : AutoPlayerConfig := { enabledConfig with AutoMeld := true }

/-- A one-tile hand: draw-phase (count ≡ 1 mod 3). -/
def drawHand : PlayerInfo := ⟨[1], [], [], []⟩

/-- A two-tile hand: choice-phase (count ≡ 2 mod 3). -/
def choiceHand : PlayerInfo := ⟨[2], [], [], []⟩

/-- A three-tile hand: the invalid phase (count ≡ 0 mod 3). -/
def invalidHand : PlayerInfo := ⟨[3], [], [], []⟩

/-- A hand vector with no tile at all. -/
def zeroHand : PlayerInfo := ⟨[0], [], [], []⟩

/-- A sample analysis result ranking tile 4 as the best discard. -/
def sampleResult : Hand14AnalysisResult := ⟨4, ⟨1, 8, 3900, 0⟩⟩

/-- A sample analysis result ranking tile 5 as the best discard. -/
def sampleResult5 : Hand14AnalysisResult := ⟨5, ⟨1, 8, 3900, 0⟩⟩

/-- An external analysis reporting a complete hand (shanten −1). -/
def calcShantenAgari : ShantenAnalysis := fun _ => (-1, [], [])

/-- An external analysis reporting shanten 0 with `sampleResult` on top. -/
def calcShantenSample : ShantenAnalysis := fun _ => (0, [sampleResult], [])

/-- An external analysis reporting shanten 1 with `sampleResult5` on top. -/
def calcShantenSample5 : ShantenAnalysis := fun _ => (1, [sampleResult5], [])

/-- An external meld analysis yielding no improving result. -/
def calcMeldEmpty : MeldAnalysis := fun _ _ _ _ => (0, [])

/-- An external meld analysis yielding `sampleResult` as an improving result. -/
def calcMeldSample : MeldAnalysis := fun _ _ _ _ => (0, [sampleResult])

/-- An attached sender whose calls all succeed. -/
def senderOk : ActionSenderModel := fun _ => Except.ok ()

/-- A concrete discard decision handed to the execution gate. -/
def discardDecision4 : Decision := ⟨"discard", 4, 9/10, "r"⟩

/-- A concrete pass decision handed to the execution gate. -/
def passDecision0 : Decision := ⟨"pass", 0, 0, "p"⟩

/-- A persisted configuration whose confidence bound is out of range. -/
def badConfigFile : AutoPlayerConfigFile := { defaultConfigFile with MinConfidence := 2 }

end MahjongHelper

namespace Majsoul

/-- Majsoul action type constants
(src/platform/majsoul/action_sender.go lines 28-35). -/
def ActionTypeChi : ℤ := 1
def ActionTypePon : ℤ := 2
def ActionTypeKan : ℤ := 3
def ActionTypeRiichi : ℤ := 4
def ActionTypeAgari : ℤ := 5
def ActionTypePass : ℤ := 6

/-- `ActionRequest` (src/platform/majsoul/action_sender.go lines 38-44).
`Tile`, `Combination` and `Pass` carry the `omitempty` JSON tag.  The Go
field `Type` is spelt `ReqType` here because `Type` is a Lean keyword. -/
structure ActionRequest where
  ReqType : ℤ
  Tile : String
  Combination : String
  Pass : Bool
  Timestamp : ℤ
deriving DecidableEq

/-- The JSON scalar values appearing in an encoded `ActionRequest`. -/
inductive JsonValue where
  | jint (n : ℤ)
  | jstr (s : String)
  | jbool (b : Bool)
deriving DecidableEq

/-- Go `encoding/json` marshalling of `ActionRequest` as the ordered list of
emitted fields: `type` and `timestamp` are always present; `tile`,
`combination` and `pass` are tagged `omitempty`, so they are dropped at
their zero values (`""`, `""`, `false`). -/
def encodeActionRequest (r : ActionRequest) : List (String × JsonValue) :=
  [("type", JsonValue.jint r.ReqType)]
  ++ (if r.Tile == "" then [] else [("tile", JsonValue.jstr r.Tile)])
  ++ (if r.Combination == "" then [] else [("combination", JsonValue.jstr r.Combination)])
  ++ (if r.Pass then [("pass", JsonValue.jbool true)] else [])
  ++ [("timestamp", JsonValue.jint r.Timestamp)]

/-- `Tile34ToMajsoulStr` (src/platform/majsoul/action_sender.go lines
135-152). -/
def Tile34ToMajsoulStr (tile34 : ℤ) : String :=
  if tile34 < 0 ∨ tile34 > 33 then ""
  else
    let suits := ["m", "p", "s", "z"]
    let suit := tile34 / 9
    let number := tile34 % 9
    if suit == 3 then toString (number + 1) ++ "z"
    else toString (number + 1) ++ suits.getD suit.toNat ""

/-- The request built by `SendDiscard` (src/platform/majsoul/action_sender.go
lines 47-57): the majsoul tile string is computed but not used; only the type
(`ActionTypePass`) and the timestamp are set, every other field keeps its Go
zero value.  `now` stands for `time.Now().UnixMilli()`. -/
def SendDiscardRequest (tile34 : ℤ) (now : ℤ) : ActionRequest :=
  let _tileStr := Tile34ToMajsoulStr tile34
  { ReqType := ActionTypePass
    Tile := ""
    Combination := ""
    Pass := false
    Timestamp := now }

end Majsoul

/-! Theorems.  Helper lemmas come first, then one theorem per claim (with a
witness or counterexample where required). -/

namespace MahjongHelper

/-- The running-maximum update of `assessDangerLevel` is `max`. -/
theorem ite_gt_eq_max (a b : ℚ) : (if b > a then b else a) = max a b := by
  rcases le_or_lt b a with h | h
  · rw [if_neg (not_lt.mpr h), max_eq_left h]
  · rw [if_pos h, max_eq_right h.le]

/-- C1: with the engine enabled, a draw-phase hand (tile count ≡ 1 mod 3)
and an externally computed shanten of −1, `MakeDecision` returns the agari
decision with confidence 1, for every strategy value, danger table, meld
target and meld flag: the completed-hand check precedes all strategy
dispatch. -/
theorem agari_takes_precedence (config : AutoPlayerConfig)
    (calcShanten : ShantenAnalysis) (calcMeld : MeldAnalysis) (pi : PlayerInfo)
    (rt : riskTable) (targetTile : ℤ) (canMeld : Bool)
    (hEnabled : config.Enabled = true)
    (hPhase : CountOfTiles34 pi.HandTiles34 % 3 = 1)
    (hShanten : (calcShanten pi).1 = -1) :
    MakeDecision config calcShanten calcMeld pi rt targetTile canMeld =
      { Action := "agari", Tile := 0, Confidence := 1, Reason := "已和牌" } := by
  simp [MakeDecision, hEnabled, hPhase, hShanten]

/-- Witness for the agari-precedence theorem at a concrete enabled
configuration, one-tile hand and complete-hand analysis. -/
theorem agari_takes_precedence_w :
    MakeDecision enabledConfig calcShantenAgari calcMeldEmpty drawHand none 0 false =
      { Action := "agari", Tile := 0, Confidence := 1, Reason := "已和牌" } :=
  agari_takes_precedence enabledConfig calcShantenAgari calcMeldEmpty drawHand none 0
    false rfl rfl rfl

/-- C2: evaluation of the code at the failing input.  Under the defensive
strategy with danger level 0 ≤ threshold 0.15 and a non-empty analysis list
ranking tile 4 first, the engine returns pass with confidence 0, while the
balanced policy on the same hand, analysis results, danger table and danger
level returns the discard of tile 4 at confidence 0.85: the delegation in
`defensiveDiscardDecision` passes `nil, nil` for the analysis lists instead
of the computed ones. -/
theorem defensive_delegation_drops_results :
    MakeDecision defensiveConfig calcShantenSample calcMeldEmpty drawHand none 0 false =
      { Action := "pass", Tile := 0, Confidence := 0, Reason := "无法找到合适切牌" }
    ∧ balancedDiscardDecision defensiveConfig drawHand [sampleResult] [] none
        (assessDangerLevel none drawHand) =
      { Action := "discard", Tile := 4, Confidence := 85/100,
        Reason := "平衡切牌：4 (进张8, 打点3900)" } := by
  constructor
  · norm_num [MakeDecision, makeDiscardDecision, defensiveDiscardDecision,
      balancedDiscardDecision, defendEarlyReturn, balancedOffense, assessDangerLevel,
      defensiveConfig, enabledConfig, defaultAutoPlayerConfig, calcShantenSample,
      CountOfTiles34, drawHand]
  · norm_num [balancedDiscardDecision, defendEarlyReturn, balancedOffense,
      assessDangerLevel, defensiveConfig, enabledConfig, defaultAutoPlayerConfig,
      sampleResult, MahjongZH, drawHand]
    rfl

/-- C3 counterexample: in choice-phase with a meld opportunity and
`autoMeld = false`, the engine returns the pass decision "自动鸣牌已禁用"
and does not fall through to the discard decision for that phase (which
would be the balanced discard of tile 5). -/
theorem meld_branch_no_fallthrough_cex :
    MakeDecision enabledConfig calcShantenSample5 calcMeldEmpty choiceHand none 4 true =
      { Action := "pass", Tile := 0, Confidence := 0, Reason := "自动鸣牌已禁用" }
    ∧ MakeDecision enabledConfig calcShantenSample5 calcMeldEmpty choiceHand none 4 true ≠
        makeDiscardDecision enabledConfig calcShantenSample5 choiceHand none := by
  have h1 : MakeDecision enabledConfig calcShantenSample5 calcMeldEmpty choiceHand none 4
      true = { Action := "pass", Tile := 0, Confidence := 0, Reason := "自动鸣牌已禁用" } := by
    norm_num [MakeDecision, makeMeldDecision, enabledConfig, defaultAutoPlayerConfig,
      calcShantenSample5, CountOfTiles34, choiceHand]
  have h2 : makeDiscardDecision enabledConfig calcShantenSample5 choiceHand none =
      { Action := "discard", Tile := 5, Confidence := 85/100,
        Reason := "平衡切牌：5 (进张8, 打点3900)" } := by
    norm_num [makeDiscardDecision, balancedDiscardDecision, defendEarlyReturn,
      balancedOffense, assessDangerLevel, enabledConfig, defaultAutoPlayerConfig,
      calcShantenSample5, sampleResult5, MahjongZH, choiceHand]
    rfl
  refine ⟨h1, ?_⟩
  rw [h1, h2]
  intro h
  exact absurd (congrArg Decision.Action h) (by decide)

/-- C3 amended: in choice-phase with a meld opportunity, `MakeDecision`
returns exactly what the meld branch returns: pass "自动鸣牌已禁用" when
`autoMeld` is off, pass "鸣牌效果不佳" when the post-meld analysis yields no
improving result, and the meld of the target tile at confidence 0.75 when it
yields one; it never falls through to the discard decision for the phase. -/
theorem meld_branch_returns (config : AutoPlayerConfig) (calcShanten : ShantenAnalysis)
    (calcMeld : MeldAnalysis) (pi : PlayerInfo) (rt : riskTable) (targetTile : ℤ)
    (hEnabled : config.Enabled = true)
    (hPhase : CountOfTiles34 pi.HandTiles34 % 3 = 2)
    (hTarget : targetTile ≠ -1) :
    MakeDecision config calcShanten calcMeld pi rt targetTile true =
      makeMeldDecision config calcMeld pi targetTile rt
    ∧ (config.AutoMeld = false →
        makeMeldDecision config calcMeld pi targetTile rt =
          { Action := "pass", Tile := 0, Confidence := 0, Reason := "自动鸣牌已禁用" })
    ∧ (config.AutoMeld = true → (calcMeld pi targetTile false true).2 = [] →
        makeMeldDecision config calcMeld pi targetTile rt =
          { Action := "pass", Tile := 0, Confidence := 0, Reason := "鸣牌效果不佳" })
    ∧ (config.AutoMeld = true → ∀ best rest,
        (calcMeld pi targetTile false true).2 = best :: rest →
        makeMeldDecision config calcMeld pi targetTile rt =
          { Action := "meld", Tile := targetTile, Confidence := 75/100,
            Reason := "鸣牌：" ++ MahjongZH targetTile ++ " (向听"
              ++ toString best.Result13.Shanten ++ ", 进张"
              ++ toString best.Result13.WaitsAllCount ++ ")" }) := by
  refine ⟨?_, ?_, ?_, ?_⟩
  · simp [MakeDecision, hEnabled, hPhase, hTarget]
  · intro hOff; simp [makeMeldDecision, hOff]
  · intro hOn hEmpty; simp [makeMeldDecision, hOn, hEmpty]
  · intro hOn best rest hCons; simp [makeMeldDecision, hOn, hCons]

/-- Witness for the meld-branch theorem: with auto-meld on and an improving
post-meld result, the engine melds tile 4 at confidence 0.75. -/
theorem meld_branch_returns_w :
    MakeDecision autoMeldConfig calcShantenSample5 calcMeldSample choiceHand none 4 true =
      makeMeldDecision autoMeldConfig calcMeldSample choiceHand 4 none
    ∧ makeMeldDecision autoMeldConfig calcMeldSample choiceHand 4 none =
      { Action := "meld", Tile := 4, Confidence := 75/100,
        Reason := "鸣牌：" ++ MahjongZH 4 ++ " (向听"
          ++ toString (1 : ℤ) ++ ", 进张" ++ toString (8 : ℤ) ++ ")" } :=
  ⟨(meld_branch_returns autoMeldConfig calcShantenSample5 calcMeldSample choiceHand none 4
      rfl rfl (by decide)).1,
   (meld_branch_returns autoMeldConfig calcShantenSample5 calcMeldSample choiceHand none 4
      rfl rfl (by decide)).2.2.2 rfl sampleResult [] rfl⟩

/-- C4 counterexample: on a hand whose tile count is ≡ 0 mod 3 the engine
does not surface an error outcome — it returns the ordinary pass decision
with confidence 0 and reason "无有效操作". -/
theorem phase_zero_returns_pass_cex :
    MakeDecision enabledConfig calcShantenSample calcMeldEmpty invalidHand none 0 false =
      { Action := "pass", Tile := 0, Confidence := 0, Reason := "无有效操作" } := by
  norm_num [MakeDecision, enabledConfig, defaultAutoPlayerConfig, calcShantenSample,
    CountOfTiles34, invalidHand]

/-- C4 amended: on a hand with tile count ≡ 0 mod 3 the engine returns the
normal pass decision (confidence 0, reason "无有效操作") rather than an
error outcome, and the interactive loop itself surfaces the phase error
"参数错误" and returns with the player state untouched. -/
theorem phase_zero_behaviour (config : AutoPlayerConfig) (calcShanten : ShantenAnalysis)
    (calcMeld : MeldAnalysis) (pi : PlayerInfo) (rt : riskTable) (targetTile : ℤ)
    (canMeld : Bool) (strToTile34 : String → Except String (ℕ × Bool))
    (handleAutoCmd : String → Bool) (input : String)
    (hEnabled : config.Enabled = true)
    (hPhase : CountOfTiles34 pi.HandTiles34 % 3 = 0) :
    MakeDecision config calcShanten calcMeld pi rt targetTile canMeld =
      { Action := "pass", Tile := 0, Confidence := 0, Reason := "无有效操作" }
    ∧ interactStep strToTile34 handleAutoCmd pi input =
        (some ("参数错误: " ++ toString (CountOfTiles34 pi.HandTiles34) ++ " 张牌"), pi) := by
  constructor
  · simp [MakeDecision, hEnabled, hPhase]
  · simp [interactStep, hPhase]

/-- Witness for the phase-zero theorem on a concrete three-tile hand. -/
theorem phase_zero_behaviour_w :
    MakeDecision enabledConfig calcShantenAgari calcMeldEmpty invalidHand none 0 false =
      { Action := "pass", Tile := 0, Confidence := 0, Reason := "无有效操作" }
    ∧ interactStep (fun _ => Except.error "e") (fun _ => false) invalidHand "1m" =
        (some ("参数错误: " ++ toString (CountOfTiles34 invalidHand.HandTiles34)
          ++ " 张牌"), invalidHand) :=
  phase_zero_behaviour enabledConfig calcShantenAgari calcMeldEmpty invalidHand none 0
    false (fun _ => Except.error "e") (fun _ => false) "1m" rfl rfl

end MahjongHelper

namespace MahjongHelper

/-- The second component of an enumerated pair is an element of the list. -/
theorem snd_mem_of_mem_enum {α : Type} {l : List α} {p : ℕ × α}
    (hp : p ∈ l.enum) : p.2 ∈ l := by
  obtain ⟨i, x⟩ := p
  rw [List.enum_eq_zip_range] at hp
  exact (List.of_mem_zip hp).2

/-- The danger fold of `assessDangerLevel` over any pair list is a `max`
fold over the risks of the positive-count entries. -/
theorem foldl_danger_eq_foldl_max (table : List ℚ) (l : List (ℕ × ℕ)) (a : ℚ) :
    l.foldl (fun maxRisk p =>
      if 0 < p.2 then
        (if table.getD p.1 0 > maxRisk then table.getD p.1 0 else maxRisk)
      else maxRisk) a
    = ((l.filter (fun p => 0 < p.2)).map (fun p => table.getD p.1 0)).foldl max a := by
  induction l generalizing a with
  | nil => rfl
  | cons p l ih =>
    by_cases h : 0 < p.2
    · show List.foldl _
        (if 0 < p.2 then
          (if table.getD p.1 0 > a then table.getD p.1 0 else a) else a) l = _
      rw [if_pos h, ite_gt_eq_max]
      have hfil : List.filter (fun q : ℕ × ℕ => decide (0 < q.2)) (p :: l)
          = p :: List.filter (fun q : ℕ × ℕ => decide (0 < q.2)) l := by
        simp [List.filter_cons, h]
      rw [hfil, List.map_cons, List.foldl_cons]
      exact ih (max a (table.getD p.1 0))
    · show List.foldl _
        (if 0 < p.2 then
          (if table.getD p.1 0 > a then table.getD p.1 0 else a) else a) l = _
      rw [if_neg h]
      have hfil : List.filter (fun q : ℕ × ℕ => decide (0 < q.2)) (p :: l)
          = List.filter (fun q : ℕ × ℕ => decide (0 < q.2)) l := by
        simp [List.filter_cons, h]
      rw [hfil]
      exact ih a

/-- `assessDangerLevel` on a non-nil table is the `max` fold, from `0`, of
the risks of the hand tiles with positive count. -/
theorem assessDangerLevel_some (table : List ℚ) (pi : PlayerInfo) :
    assessDangerLevel (some table) pi
    = ((pi.HandTiles34.enum.filter (fun p => 0 < p.2)).map
        (fun p => table.getD p.1 0)).foldl max 0 :=
  foldl_danger_eq_foldl_max table pi.HandTiles34.enum 0

/-- The seed is a lower bound of a `max` fold. -/
theorem le_foldl_max (l : List ℚ) (a : ℚ) : a ≤ l.foldl max a := by
  induction l generalizing a with
  | nil => exact le_refl a
  | cons x l ih => exact le_trans (le_max_left a x) (ih (max a x))

/-- Every member of the list is bounded by the `max` fold. -/
theorem mem_le_foldl_max (l : List ℚ) : ∀ (a x : ℚ), x ∈ l → x ≤ l.foldl max a := by
  induction l with
  | nil => intro a x hx; cases hx
  | cons y l ih =>
    intro a x hx
    rcases List.mem_cons.mp hx with h | h
    · subst h
      simp only [List.foldl_cons]
      exact le_trans (le_max_right a x) (le_foldl_max l _)
    · simpa using ih (max a y) x h

/-- A `max` fold returns its seed or a member of the list. -/
theorem foldl_max_eq_or_mem (l : List ℚ) : ∀ a : ℚ, l.foldl max a = a ∨ l.foldl max a ∈ l := by
  induction l with
  | nil => intro a; left; rfl
  | cons y l ih =>
    intro a
    simp only [List.foldl_cons]
    rcases ih (max a y) with h | h
    · rcases max_choice a y with hm | hm
      · left; rw [h, hm]
      · right; rw [h, hm]; exact List.mem_cons_self y l
    · right; exact List.mem_cons_of_mem y h

/-- Indexing with default `0` into a list of non-negative rationals is
non-negative. -/
theorem getD_nonneg (table : List ℚ) :
    (∀ r ∈ table, 0 ≤ r) → ∀ n : ℕ, 0 ≤ table.getD n 0 := by
  induction table with
  | nil => intro _ n; cases n <;> simp [List.getD]
  | cons x t ih =>
    intro h n
    cases n with
    | zero => simpa using h x (List.mem_cons_self x t)
    | succ m =>
      simpa using ih (fun r hr => h r (List.mem_cons_of_mem x hr)) m

/-- C5: `assessDangerLevel` returns 0 on a nil table (never crashing on it),
returns 0 when no hand tile has positive count, and on a non-nil table of
non-negative risks it returns the maximum of `dangerTable[t]` over the hand
tiles `t` with positive count: it bounds every such risk from above and, when
at least one such tile exists, it is one of those risks. -/
theorem assessDangerLevel_spec (pi : PlayerInfo) (table : List ℚ) :
    assessDangerLevel none pi = 0
    ∧ ((∀ c ∈ pi.HandTiles34, c = 0) → assessDangerLevel (some table) pi = 0)
    ∧ ((∀ r ∈ table, 0 ≤ r) →
        (∀ x ∈ (pi.HandTiles34.enum.filter (fun p => 0 < p.2)).map
            (fun p => table.getD p.1 0), x ≤ assessDangerLevel (some table) pi)
        ∧ ((pi.HandTiles34.enum.filter (fun p => 0 < p.2)).map
              (fun p => table.getD p.1 0) ≠ [] →
            assessDangerLevel (some table) pi ∈
              (pi.HandTiles34.enum.filter (fun p => 0 < p.2)).map
                (fun p => table.getD p.1 0))) := by
  refine ⟨rfl, ?_, ?_⟩
  · intro h
    have hfil : pi.HandTiles34.enum.filter (fun p => 0 < p.2) = [] := by
      rw [List.filter_eq_nil_iff]
      intro p hp
      simp [h p.2 (snd_mem_of_mem_enum hp)]
    rw [assessDangerLevel_some, hfil]
    rfl
  · intro hnn
    constructor
    · intro x hx
      rw [assessDangerLevel_some]
      exact mem_le_foldl_max _ 0 x hx
    · intro hne
      rw [assessDangerLevel_some]
      rcases foldl_max_eq_or_mem
        ((pi.HandTiles34.enum.filter (fun p => 0 < p.2)).map
          (fun p => table.getD p.1 0)) 0 with h | h
      · rcases List.exists_mem_of_ne_nil _ hne with ⟨y, hy⟩
        have h1 : y ≤ 0 := by
          have := mem_le_foldl_max
            ((pi.HandTiles34.enum.filter (fun p => 0 < p.2)).map
              (fun p => table.getD p.1 0)) 0 y hy
          rwa [h] at this
        have h2 : 0 ≤ y := by
          rcases List.mem_map.mp hy with ⟨p, _, rfl⟩
          exact getD_nonneg table hnn p.1
        rw [h]
        exact le_antisymm h1 h2 ▸ hy
      · exact h

/-- Witness for the danger-assessment theorem: a nil table and a no-tile
hand both yield danger 0, and on the one-tile hand with risk table `[1/2]`
the single positive-count risk `1/2` is bounded by the assessed level. -/
theorem assessDangerLevel_spec_w :
    assessDangerLevel none zeroHand = 0
    ∧ assessDangerLevel (some [1/2]) zeroHand = 0
    ∧ (1/2 : ℚ) ≤ assessDangerLevel (some [1/2]) drawHand :=
  ⟨(assessDangerLevel_spec zeroHand [1/2]).1,
   (assessDangerLevel_spec zeroHand [1/2]).2.1 (by simp [zeroHand]),
   ((assessDangerLevel_spec drawHand [1/2]).2.2 (by norm_num)).1 (1/2)
     (by simp [drawHand, List.enum, List.enumFrom])⟩

/-- C6: when the danger level equals the defense threshold exactly, the
strict greater-than comparison keeps both strategies off the
defensive-discard branch: the defensive strategy delegates to the balanced
policy (with its nil analysis lists), and the balanced strategy returns its
offensive part, for every configuration, hand, danger table and analysis
results. -/
theorem threshold_equality_pinned (config : AutoPlayerConfig) (pi : PlayerInfo)
    (rt : riskTable) (results incShanten : List Hand14AnalysisResult) (d : ℚ)
    (h : d = config.DefenseThreshold) :
    defensiveDiscardDecision config pi rt d = balancedDiscardDecision config pi [] [] rt d
    ∧ balancedDiscardDecision config pi results incShanten rt d
        = balancedOffense results d := by
  subst h
  have hnone : defendEarlyReturn config pi rt config.DefenseThreshold = none := by
    simp [defendEarlyReturn]
  exact ⟨by simp [defensiveDiscardDecision, hnone],
         by simp [balancedDiscardDecision, hnone]⟩

/-- Witness for the threshold-equality theorem at the default threshold
`0.15` with a concrete hand and analysis list. -/
theorem threshold_equality_pinned_w :
    defensiveDiscardDecision defaultAutoPlayerConfig drawHand none (15/100)
      = balancedDiscardDecision defaultAutoPlayerConfig drawHand [] [] none (15/100)
    ∧ balancedDiscardDecision defaultAutoPlayerConfig drawHand [sampleResult] [] none (15/100)
      = balancedOffense [sampleResult] (15/100) :=
  threshold_equality_pinned defaultAutoPlayerConfig drawHand none [sampleResult] []
    (15/100) rfl

end MahjongHelper

namespace MahjongHelper

/-- C7: `validateConfig` accepts exactly the configurations with
`MinConfidence ∈ [0,1]`, `DefenseThreshold ∈ [0,1]`, `DelaySeconds ∈ [0,10]`
and a strategy in the closed enum, and on every out-of-range configuration
it returns the message naming the first violated field in the declaration
check order. -/
theorem validateConfig_spec (c : AutoPlayerConfigFile) :
    (validateConfig c = none ↔
      (0 ≤ c.MinConfidence ∧ c.MinConfidence ≤ 1 ∧ 0 ≤ c.DefenseThreshold ∧
        c.DefenseThreshold ≤ 1 ∧ 0 ≤ c.DelaySeconds ∧ c.DelaySeconds ≤ 10 ∧
        c.Strategy ∈ validStrategies))
    ∧ ((c.MinConfidence < 0 ∨ 1 < c.MinConfidence) →
        validateConfig c = some "最小置信度必须在 0.0 到 1.0 之间")
    ∧ (0 ≤ c.MinConfidence → c.MinConfidence ≤ 1 →
        (c.DefenseThreshold < 0 ∨ 1 < c.DefenseThreshold) →
        validateConfig c = some "防守阈值必须在 0.0 到 1.0 之间")
    ∧ (0 ≤ c.MinConfidence → c.MinConfidence ≤ 1 →
        0 ≤ c.DefenseThreshold → c.DefenseThreshold ≤ 1 →
        (c.DelaySeconds < 0 ∨ 10 < c.DelaySeconds) →
        validateConfig c = some "延迟时间必须在 0.0 到 10.0 秒之间")
    ∧ (0 ≤ c.MinConfidence → c.MinConfidence ≤ 1 →
        0 ≤ c.DefenseThreshold → c.DefenseThreshold ≤ 1 →
        0 ≤ c.DelaySeconds → c.DelaySeconds ≤ 10 →
        c.Strategy ∉ validStrategies →
        validateConfig c = some "策略必须是以下之一: [aggressive balanced defensive]") := by
  have m1 : (c.MinConfidence < 0 ∨ c.MinConfidence > 1) →
      validateConfig c = some "最小置信度必须在 0.0 到 1.0 之间" := by
    intro h
    simp only [validateConfig]
    rw [if_pos h]
  have m2 : ¬(c.MinConfidence < 0 ∨ c.MinConfidence > 1) →
      (c.DefenseThreshold < 0 ∨ c.DefenseThreshold > 1) →
      validateConfig c = some "防守阈值必须在 0.0 到 1.0 之间" := by
    intro h1 h2
    simp only [validateConfig]
    rw [if_neg h1, if_pos h2]
  have m3 : ¬(c.MinConfidence < 0 ∨ c.MinConfidence > 1) →
      ¬(c.DefenseThreshold < 0 ∨ c.DefenseThreshold > 1) →
      (c.DelaySeconds < 0 ∨ c.DelaySeconds > 10) →
      validateConfig c = some "延迟时间必须在 0.0 到 10.0 秒之间" := by
    intro h1 h2 h3
    simp only [validateConfig]
    rw [if_neg h1, if_neg h2, if_pos h3]
  have m4 : ¬(c.MinConfidence < 0 ∨ c.MinConfidence > 1) →
      ¬(c.DefenseThreshold < 0 ∨ c.DefenseThreshold > 1) →
      ¬(c.DelaySeconds < 0 ∨ c.DelaySeconds > 10) →
      c.Strategy ∉ validStrategies →
      validateConfig c = some "策略必须是以下之一: [aggressive balanced defensive]" := by
    intro h1 h2 h3 h4
    simp only [validateConfig]
    rw [if_neg h1, if_neg h2, if_neg h3, if_pos h4]
  have mok : ¬(c.MinConfidence < 0 ∨ c.MinConfidence > 1) →
      ¬(c.DefenseThreshold < 0 ∨ c.DefenseThreshold > 1) →
      ¬(c.DelaySeconds < 0 ∨ c.DelaySeconds > 10) →
      c.Strategy ∈ validStrategies →
      validateConfig c = none := by
    intro h1 h2 h3 h4
    simp only [validateConfig]
    rw [if_neg h1, if_neg h2, if_neg h3, if_neg (not_not_intro h4)]
  refine ⟨⟨?_, ?_⟩, m1, ?_, ?_, ?_⟩
  · intro hnone
    by_cases h1 : c.MinConfidence < 0 ∨ c.MinConfidence > 1
    · rw [m1 h1] at hnone; cases hnone
    by_cases h2 : c.DefenseThreshold < 0 ∨ c.DefenseThreshold > 1
    · rw [m2 h1 h2] at hnone; cases hnone
    by_cases h3 : c.DelaySeconds < 0 ∨ c.DelaySeconds > 10
    · rw [m3 h1 h2 h3] at hnone; cases hnone
    by_cases h4 : c.Strategy ∈ validStrategies
    · push_neg at h1 h2 h3
      exact ⟨h1.1, h1.2, h2.1, h2.2, h3.1, h3.2, h4⟩
    · rw [m4 h1 h2 h3 h4] at hnone; cases hnone
  · rintro ⟨ha1, ha2, hb1, hb2, hd1, hd2, hs⟩
    exact mok (not_or.mpr ⟨not_lt.mpr ha1, not_lt.mpr ha2⟩)
      (not_or.mpr ⟨not_lt.mpr hb1, not_lt.mpr hb2⟩)
      (not_or.mpr ⟨not_lt.mpr hd1, not_lt.mpr hd2⟩) hs
  · intro ha1 ha2 h
    exact m2 (not_or.mpr ⟨not_lt.mpr ha1, not_lt.mpr ha2⟩) h
  · intro ha1 ha2 hb1 hb2 h
    exact m3 (not_or.mpr ⟨not_lt.mpr ha1, not_lt.mpr ha2⟩)
      (not_or.mpr ⟨not_lt.mpr hb1, not_lt.mpr hb2⟩) h
  · intro ha1 ha2 hb1 hb2 hd1 hd2 hs
    exact m4 (not_or.mpr ⟨not_lt.mpr ha1, not_lt.mpr ha2⟩)
      (not_or.mpr ⟨not_lt.mpr hb1, not_lt.mpr hb2⟩)
      (not_or.mpr ⟨not_lt.mpr hd1, not_lt.mpr hd2⟩) hs

/-- Witness for the validation theorem: the default persisted configuration
is accepted, and the configuration with `MinConfidence = 2` is rejected
naming the confidence field. -/
theorem validateConfig_spec_w :
    validateConfig defaultConfigFile = none
    ∧ validateConfig badConfigFile = some "最小置信度必须在 0.0 到 1.0 之间" :=
  ⟨(validateConfig_spec defaultConfigFile).1.mpr
      (by norm_num [defaultConfigFile, validStrategies]),
   (validateConfig_spec badConfigFile).2.1
      (by norm_num [badConfigFile, defaultConfigFile])⟩

/-- C8: when the parsed persisted configuration fails validation,
`LoadAutoPlayerConfig` returns the validation error naming the violation and
the active process-wide configuration comes back unchanged:
`SetAutoPlayerConfig` is never reached on that path. -/
theorem load_invalid_keeps_active (f : AutoPlayerConfigFile)
    (active : AutoPlayerConfig) (msg : String)
    (h : validateConfig f = some msg) :
    LoadAutoPlayerConfig (ConfigFileState.parsed f) active =
      (Except.error ("配置文件验证失败: " ++ msg), active) := by
  simp [LoadAutoPlayerConfig, h]

/-- Witness for the load theorem: loading the out-of-range persisted
configuration over the default active configuration errors and keeps the
default active. -/
theorem load_invalid_keeps_active_w :
    LoadAutoPlayerConfig (ConfigFileState.parsed badConfigFile) defaultAutoPlayerConfig =
      (Except.error ("配置文件验证失败: " ++ "最小置信度必须在 0.0 到 1.0 之间"),
        defaultAutoPlayerConfig) :=
  load_invalid_keeps_active badConfigFile defaultAutoPlayerConfig
    "最小置信度必须在 0.0 到 1.0 之间"
    (by norm_num [validateConfig, badConfigFile, defaultConfigFile])

/-- C9: for every decision other than `pass`, when confirmation is required
and the typed response is a rejection (neither `y` nor `Y`),
`ExecuteDecision` returns the user-cancelled error and its event trace
contains no ActionChannel call at all; and for a `pass` decision it returns
success immediately with an empty trace (no display, no dispatch). -/
theorem executeDecision_gate (config : AutoPlayerConfig)
    (sender : Option ActionSenderModel) (response : String) (d : Decision) :
    (d.Action = "pass" →
      ExecuteDecision config sender response d = (Except.ok (), []))
    ∧ (d.Action ≠ "pass" → config.ConfirmActions = true →
        response ≠ "y" → response ≠ "Y" →
        (ExecuteDecision config sender response d).1 = Except.error "用户取消操作"
        ∧ ∀ c2 : ChannelCall,
            ExecEvent.sendEvent c2 ∉ (ExecuteDecision config sender response d).2) := by
  constructor
  · intro h
    simp [ExecuteDecision, h]
  · intro hne hconf hy hY
    have hca : confirmAction response = false := by
      simp [confirmAction, hy, hY]
    have hact : (d.Action == "pass") = false := beq_eq_false_iff_ne.mpr hne
    have hres : ExecuteDecision config sender response d =
        (Except.error "用户取消操作",
          [ExecEvent.displayEvent d, ExecEvent.confirmPromptEvent]) := by
      simp [ExecuteDecision, hact, hconf, hca]
    rw [hres]
    exact ⟨rfl, by intro c2; simp⟩

/-- Witness for the execution-gate theorem: rejecting the confirmation of a
concrete discard decision yields the cancellation error with no channel
call in the trace, and a concrete pass decision is a no-op. -/
theorem executeDecision_gate_w :
    (ExecuteDecision enabledConfig (some senderOk) "n" discardDecision4).1 =
      Except.error "用户取消操作"
    ∧ ExecEvent.sendEvent (ChannelCall.discardCall 4) ∉
        (ExecuteDecision enabledConfig (some senderOk) "n" discardDecision4).2
    ∧ ExecuteDecision enabledConfig (some senderOk) "n" passDecision0 =
        (Except.ok (), []) :=
  ⟨((executeDecision_gate enabledConfig (some senderOk) "n" discardDecision4).2
      (by decide) rfl (by decide) (by decide)).1,
   ((executeDecision_gate enabledConfig (some senderOk) "n" discardDecision4).2
      (by decide) rfl (by decide) (by decide)).2 (ChannelCall.discardCall 4),
   (executeDecision_gate enabledConfig (some senderOk) "n" passDecision0).1 rfl⟩

end MahjongHelper

namespace Majsoul

/-- C10: the request `SendDiscard` posts is independent of the tile being
discarded: its JSON body holds exactly the `type` field with the pass code 6
and the timestamp; the computed majsoul tile string is unused, the `tile`
and `combination` fields are omitted (zero values under `omitempty`) and the
`pass` flag stays `false`. -/
theorem sendDiscard_is_bare_pass (t1 t2 now : ℤ) :
    SendDiscardRequest t1 now = SendDiscardRequest t2 now
    ∧ encodeActionRequest (SendDiscardRequest t1 now) =
        [("type", JsonValue.jint 6), ("timestamp", JsonValue.jint now)]
    ∧ (SendDiscardRequest t1 now).Pass = false
    ∧ (SendDiscardRequest t1 now).Tile = ""
    ∧ (SendDiscardRequest t1 now).Combination = "" := by
  refine ⟨rfl, ?_, rfl, rfl, rfl⟩
  simp [encodeActionRequest, SendDiscardRequest, ActionTypePass]

end Majsoul
